import Mathlib

/-
Verification of the widget-intelligence similarity engine
(src/similarity_engine.rs) against its natural-language specification.

Modelling conventions:
* Rust `f64` values are modelled as exact rationals (`ℚ`).  All arithmetic the
  engine performs on them (+, -, *, /, abs, min, max, comparisons) is exact on
  the inputs appearing in this development, so no floating-point rounding is
  modelled.  `u64`/`u32`/`usize` become `ℕ`.
* `std::time::SystemTime::now()` is modelled by passing the current timestamp
  as an explicit `now : ℕ` argument to the stateful operations.
* `HashMap` values are modelled as association lists; the engine only uses
  `entry/or_insert`, `get`, and `len` on them, never iteration order.
* Rust `sort_by` is a stable sort; it is modelled by `List.insertionSort`
  with the same comparison relation, which is also stable, hence produces the
  identical list.
* `strsim::jaro_winkler` is an external crate function; it is transcribed
  below (`jaro`, `jaroWinkler`) from the generic_jaro / jaro_winkler
  implementation of the strsim crate.
-/

namespace WidgetIntelligence

/-- Widget: a UI control snapshot (src/similarity_engine.rs, struct Widget). -/
structure Widget where
  label : Option String
  minimum : Option ℚ
  maximum : Option ℚ
  is_generated : Option Bool
  display_type : Option String
  current_value : Option ℚ
deriving DecidableEq

/-- WidgetValue: one entry inside a Preset (struct WidgetValue). -/
structure WidgetValue where
  widget_id : String
  label : Option String
  value : ℚ
  confidence : ℚ
deriving DecidableEq

/-- Preset: a named bundle of widget values (struct Preset). -/
structure Preset where
  name : String
  description : Option String
  widget_values : List WidgetValue
  created_by : Option String
  usage_count : ℕ
  last_used : ℕ
deriving DecidableEq

/-- WidgetFeatures: the derived feature vector (struct WidgetFeatures).
The source stores `is_generated` as an `f64` flag (0.0 / 1.0), modelled as ℚ;
`display_type_hash` is a `u64`, modelled as ℕ. -/
structure WidgetFeatures where
  label_tokens : List String
  min_value : ℚ
  max_value : ℚ
  range : ℚ
  is_generated : ℚ
  display_type_hash : ℕ
  value_patterns : List ℚ
  normalized_position : ℚ
deriving DecidableEq

/-- ValueStats (struct ValueStats).  The frequency map is keyed in the source
by the string `format!("{:.2}", value)`; the key is modelled as the integer of
hundredths `round (100 * value)` (the tie-breaking mode of float formatting
never matters for the inputs reasoned about here, whose hundredths are exact).
The source field `std_dev` is the square root of the variance; the square root
is irrational in general, so the variance itself is stored here and no claim
refers to the standard deviation. -/
structure ValueStats where
  common_values : List ℚ
  frequency_map : List (ℤ × ℕ)
  mean : ℚ
  variance : ℚ
  percentiles : List ℚ
deriving DecidableEq

/-- WidgetRecord: the unit of learning (struct WidgetRecord). -/
structure WidgetRecord where
  id : ℕ
  widget : Widget
  features : WidgetFeatures
  frequency : ℕ
  last_seen : ℕ
  value_stats : Option ValueStats
deriving DecidableEq

/-- Suggestion (struct Suggestion).  The source also carries a human-readable
`reason : String` built with `format!` from the similarity and frequency; it is
presentation-only, is never read by any code or claim, and is omitted here. -/
structure Suggestion where
  widget : Widget
  confidence : ℚ
  suggested_value : Option ℚ
  value_confidence : ℚ
  alternative_values : List ℚ
deriving DecidableEq

/-- WidgetSuggestionEngine state (struct WidgetSuggestionEngine). -/
structure WidgetSuggestionEngine where
  records : List WidgetRecord
  presets : List Preset
  display_types : List (String × ℕ)
  next_id : ℕ
deriving DecidableEq

/-- WidgetSuggestionEngine::new. -/
def WidgetSuggestionEngine.new : WidgetSuggestionEngine :=
  { records := [], presets := [], display_types := [], next_id := 1 }

/-! ## strsim jaro / jaro_winkler (external crate, transcribed) -/

/-- Mutable state of the matching loop inside strsim generic_jaro.  The source
variable named matches is called matchCount here because matches is a reserved
word in Lean. -/
structure JaroState where
  consumed : List Bool
  matchCount : ℕ
  transpositions : ℕ
  bMatchIndex : ℕ
deriving DecidableEq

/-- Inner loop of generic_jaro: scan b from index 0 upward and stop at the
first index j with minBound ≤ j ≤ maxBound, b[j] equal to the current element
of a, and b[j] not yet consumed. -/
def jaroFind (ae : Char) (b : List Char) (consumed : List Bool)
    (lo hi : ℕ) : Option ℕ :=
  (List.range b.length).find? fun j =>
    decide (lo ≤ j) && decide (j ≤ hi) &&
    decide (b[j]? = some ae) && decide (consumed[j]? = some false)

/-- One iteration of the outer loop of generic_jaro, processing the element
`ae` of the first string at index `i`.  The source guards the lower bound as
`if i > search_range { max(0, i - search_range) } else { 0 }` to avoid usize
underflow; on ℕ that is exactly truncated subtraction `i - sr`. -/
def jaroStep (b : List Char) (sr : ℕ) (st : JaroState) (i : ℕ) (ae : Char) :
    JaroState :=
  if min (b.length - 1) (i + sr) < i - sr then st
  else
    match jaroFind ae b st.consumed (i - sr) (min (b.length - 1) (i + sr)) with
    | none => st
    | some j =>
      { consumed := st.consumed.set j true
        matchCount := st.matchCount + 1
        transpositions :=
          if j < st.bMatchIndex then st.transpositions + 1 else st.transpositions
        bMatchIndex := j }

/-- Matching loop of generic_jaro: fold jaroStep over the indexed elements of
a, starting from the all-unconsumed state. -/
def jaroLoopWith (a b : List Char) (sr : ℕ) : JaroState :=
  a.enum.foldl (fun st p => jaroStep b sr st p.1 p.2)
    ⟨List.replicate b.length false, 0, 0, 0⟩

/-- Matching loop of generic_jaro at the search range used by the source,
`max(a_len, b_len) / 2 - 1`. -/
def jaroLoop (a b : List Char) : JaroState :=
  jaroLoopWith a b (max a.length b.length / 2 - 1)

/-- strsim generic_jaro on character lists. -/
def jaro (a b : List Char) : ℚ :=
  if a.length = 0 ∧ b.length = 0 then 1
  else if a.length = 0 ∨ b.length = 0 then 0
  else if a.length = 1 ∧ b.length = 1 then (if a = b then 1 else 0)
  else if (jaroLoop a b).matchCount = 0 then 0
  else
    (1 / 3) * (((jaroLoop a b).matchCount : ℚ) / a.length +
      ((jaroLoop a b).matchCount : ℚ) / b.length +
      (((jaroLoop a b).matchCount : ℚ) - (jaroLoop a b).transpositions) /
        (jaroLoop a b).matchCount)

/-- Loop invariant of the generic_jaro matching loop: the consumed buffer has
the length of b, the match counter never exceeds the number of consumed
entries, and transpositions never exceed matches. -/
def JaroInv (blen : ℕ) (st : JaroState) : Prop :=
  st.consumed.length = blen ∧
  st.matchCount ≤ st.consumed.count true ∧
  st.transpositions ≤ st.matchCount

/-- Length of the common initial segment of two character lists. -/
def commonPrefixLen : List Char → List Char → ℕ
  | a :: as, b :: bs => if a = b then commonPrefixLen as bs + 1 else 0
  | _, _ => 0

/-- strsim jaro_winkler: the jaro similarity boosted by the unlimited common
prefix length, capped at 1. -/
def jaroWinkler (a b : String) : ℚ :=
  let sim := jaro a.toList b.toList
  let l := commonPrefixLen a.toList b.toList
  min (sim + (1 / 10) * l * (1 - sim)) 1

/-! ## Feature extraction and similarity (impl WidgetSuggestionEngine) -/

/-- Splitting a character list at whitespace characters, producing the chunks
between them (possibly empty chunks at runs of whitespace, exactly like
str::split; Rust split_whitespace additionally drops the empty chunks, which
tokenize_label below also removes with its final non-empty filter). -/
def splitOnWhitespace : List Char → List (List Char)
  | [] => [[]]
  | c :: cs =>
    if c.isWhitespace then [] :: splitOnWhitespace cs
    else
      match splitOnWhitespace cs with
      | [] => [[c]]
      | g :: gs => (c :: g) :: gs

/-- WidgetSuggestionEngine::tokenize_label: lower-case, split on whitespace,
keep only alphanumeric characters of each piece, drop empty pieces.  The
character-level split is used because it matches str::split_whitespace after
the empty-piece filter. -/
def tokenize_label (label : String) : List String :=
  ((splitOnWhitespace (label.data.map Char.toLower)).map
      fun cs => cs.filter fun c => c.isAlphanum).filter
    (fun cs => ¬ cs.isEmpty) |>.map fun cs => String.mk cs

/-- Joining character lists with single spaces, as Vec::join(" ") does. -/
def joinSpaceChars : List (List Char) → List Char
  | [] => []
  | [x] => x
  | x :: xs => x ++ ' ' :: joinSpaceChars xs

/-- The space-joined full label used by calculate_label_similarity
(tokens.join(" ")). -/
def joinSpace (l : List String) : String :=
  String.mk (joinSpaceChars (l.map String.data))

/-- Running maximum over a list, mirroring the mutable max accumulation of
the inner loop in calculate_label_similarity. -/
def foldMax (f : α → ℚ) (acc : ℚ) (l : List α) : ℚ :=
  l.foldl (fun a x => max a (f x)) acc

/-- Nested loops of calculate_label_similarity: running maximum of
jaro_winkler over all pairs from tokens1 × tokens2, started at `acc`. -/
def pairMax (tokens1 tokens2 : List String) (acc : ℚ) : ℚ :=
  tokens1.foldl (fun a t1 => foldMax (fun t2 => jaroWinkler t1 t2) a tokens2) acc

/-- WidgetSuggestionEngine::calculate_label_similarity: the running maximum
of jaro_winkler over all token pairs, combined with the jaro_winkler score of
the two space-joined full labels. -/
def calculate_label_similarity (tokens1 tokens2 : List String) : ℚ :=
  if tokens1.isEmpty ∧ tokens2.isEmpty then 1
  else if tokens1.isEmpty ∨ tokens2.isEmpty then 0
  else
    max (pairMax tokens1 tokens2 0)
      (jaroWinkler (joinSpace tokens1) (joinSpace tokens2))

/-- Modelled from the spec sentence behind claim C5 (not from the source):
label similarity as the average, over the tokens of the first sequence, of
each token's best fuzzy-match score against the second sequence, keeping only
best scores above the 0.7 per-token threshold, and 0.0 when none is kept. -/
def specAvgLabelSimilarity (tokens1 tokens2 : List String) : ℚ :=
  let best := tokens1.map fun t1 =>
    (tokens2.map fun t2 => jaroWinkler t1 t2).foldr max 0
  let kept := best.filter fun s => 7 / 10 < s
  if kept.isEmpty then 0 else kept.sum / (kept.length : ℚ)

/-- WidgetSuggestionEngine::calculate_range_similarity. -/
def calculate_range_similarity (features1 features2 : WidgetFeatures) : ℚ :=
  let rangeDiff := |features1.range - features2.range|
  let maxRange := max features1.range features2.range
  let rangeSim := if 0 < maxRange then 1 - min (rangeDiff / maxRange) 1 else 1
  let minDiff := |features1.min_value - features2.min_value|
  let maxDiff := |features1.max_value - features2.max_value|
  let valueRange := max (features1.max_value - features1.min_value)
    (features2.max_value - features2.min_value)
  let valueSim :=
    if 0 < valueRange then 1 - min ((minDiff + maxDiff) / (2 * valueRange)) 1
    else 1
  (rangeSim + valueSim) / 2

/-- Display-type sub-score of calculate_similarity: 1.0 when the two
display_type_hash values are equal (zero or not), else 0.0. -/
def display_type_similarity (features1 features2 : WidgetFeatures) : ℚ :=
  if features1.display_type_hash = features2.display_type_hash then 1 else 0

/-- WidgetSuggestionEngine::calculate_similarity: fixed-weight combination of
the four sub-scores, divided by the total weight (which is exactly 1). -/
def calculate_similarity (features1 features2 : WidgetFeatures) : ℚ :=
  let labelSim := calculate_label_similarity features1.label_tokens features2.label_tokens
  let rangeSim := calculate_range_similarity features1 features2
  let displaySim := display_type_similarity features1 features2
  let genSim : ℚ := if features1.is_generated = features2.is_generated then 1 else 0
  let totalScore :=
    labelSim * (4 / 10) + rangeSim * (3 / 10) + displaySim * (2 / 10) + genSim * (1 / 10)
  let weightSum : ℚ := 4 / 10 + 3 / 10 + 2 / 10 + 1 / 10
  totalScore / weightSum

/-- Worker of dedupClose; `keep` is the most recently retained element. -/
def dedupCloseGo (keep : ℚ) : List ℚ → List ℚ
  | [] => []
  | y :: ys => if |y - keep| < 1 / 1000 then dedupCloseGo keep ys
               else y :: dedupCloseGo y ys

/-- Vec::dedup_by with the closeness test |a - b| < 0.001: drop an element
when it is within 0.001 of the previously retained element. -/
def dedupClose : List ℚ → List ℚ
  | [] => []
  | x :: xs => x :: dedupCloseGo x xs

/-- WidgetSuggestionEngine::extract_value_patterns: collect the value of every
preset widget-value whose tokenized label matches the given tokens with
similarity above 0.7, then sort ascending and drop near-duplicates.  The
source also receives the display type but ignores it (parameter named
_display_type). -/
def extract_value_patterns (presets : List Preset) (labelTokens : List String) :
    List ℚ :=
  let values := presets.foldl
    (fun acc preset =>
      preset.widget_values.foldl
        (fun acc wv =>
          match wv.label with
          | some label =>
            let otherTokens := tokenize_label label
            if 7 / 10 < calculate_label_similarity labelTokens otherTokens
            then acc ++ [wv.value] else acc
          | none => acc)
        acc)
    []
  dedupClose (values.insertionSort (· ≤ ·))

/-- Association-list lookup standing for HashMap::get on display_types. -/
def lookupDisplayType (m : List (String × ℕ)) (dt : String) : Option ℕ :=
  (m.find? fun p => p.1 = dt).map fun p => p.2

/-- Display-type identifier assignment of extract_features:
`display_types.entry(dt).or_insert(display_types.len())` — an existing entry
keeps its identifier, a new display type receives the current map size. -/
def registerDisplayType (m : List (String × ℕ)) (dt : String) :
    ℕ × List (String × ℕ) :=
  match lookupDisplayType m dt with
  | some h => (h, m)
  | none => (m.length, m ++ [(dt, m.length)])

/-- Normalized position of the current value inside [min, max], clamped to
[0, 1]; 0.5 when the current value is unknown or the range is not positive. -/
def normalizedPosition (currentValue : Option ℚ) (minValue range : ℚ) : ℚ :=
  match currentValue with
  | some v => if 0 < range then min (max ((v - minValue) / range) 0) 1 else 1 / 2
  | none => 1 / 2

/-- WidgetSuggestionEngine::extract_features (the `&mut self` variant used by
store_widget): returns the features together with the engine whose
display_types map may have gained a new entry. -/
def extract_features (e : WidgetSuggestionEngine) (widget : Widget) :
    WidgetFeatures × WidgetSuggestionEngine :=
  let labelTokens := (widget.label.map tokenize_label).getD []
  let minValue := widget.minimum.getD 0
  let maxValue := widget.maximum.getD 1
  let range := maxValue - minValue
  let isGenerated : ℚ := if widget.is_generated.getD false then 1 else 0
  let hashAndMap :=
    match widget.display_type with
    | some dt => registerDisplayType e.display_types dt
    | none => (0, e.display_types)
  let valuePatterns := extract_value_patterns e.presets labelTokens
  (⟨labelTokens, minValue, maxValue, range, isGenerated, hashAndMap.1,
     valuePatterns, normalizedPosition widget.current_value minValue range⟩,
   { e with display_types := hashAndMap.2 })

/-- The read-only feature extraction used by queries (named
extract_features_partial in the source, the `&self` variant): identical to
extract_features, except that an unknown display type maps to 0 and no new
identifier is registered. -/
def extract_features_query (e : WidgetSuggestionEngine) (widget : Widget) :
    WidgetFeatures :=
  let labelTokens := (widget.label.map tokenize_label).getD []
  let minValue := widget.minimum.getD 0
  let maxValue := widget.maximum.getD 1
  let range := maxValue - minValue
  let isGenerated : ℚ := if widget.is_generated.getD false then 1 else 0
  let hash :=
    match widget.display_type with
    | some dt => (lookupDisplayType e.display_types dt).getD 0
    | none => 0
  let valuePatterns := extract_value_patterns e.presets labelTokens
  ⟨labelTokens, minValue, maxValue, range, isGenerated, hash,
    valuePatterns, normalizedPosition widget.current_value minValue range⟩

/-! ## Value statistics -/

/-- Increment the count stored under `key`, inserting a fresh entry when the
key is absent (HashMap entry().or_insert(0) += 1). -/
def bumpKey : List (ℤ × ℕ) → ℤ → List (ℤ × ℕ)
  | [], key => [(key, 1)]
  | (k, c) :: rest, key =>
    if k = key then (k, c + 1) :: rest else (k, c) :: bumpKey rest key

/-- WidgetSuggestionEngine::compute_value_stats.  Defined for any list; the
source is only ever called with a non-empty list (an empty one would divide by
zero and underflow the percentile index). -/
def compute_value_stats (values : List ℚ) : ValueStats :=
  let sortedValues := values.insertionSort (· ≤ ·)
  let mean := sortedValues.sum / (sortedValues.length : ℚ)
  let variance :=
    (sortedValues.map fun x => (x - mean) ^ 2).sum / (sortedValues.length : ℚ)
  let percentiles :=
    [(1 : ℚ) / 10, 1 / 4, 1 / 2, 3 / 4, 9 / 10].map fun p =>
      let idx := (round (p * ((sortedValues.length - 1 : ℕ) : ℚ))).toNat
      sortedValues.getD (min idx (sortedValues.length - 1)) 0
  let frequencyMap := sortedValues.foldl (fun m v => bumpKey m (round (100 * v))) []
  { common_values := sortedValues.take 10
    frequency_map := frequencyMap
    mean := mean
    variance := variance
    percentiles := percentiles }

/-- Modelled from the spec sentence behind claim C9 (not from the source):
the common values as exactly the observations whose fixed-precision key
(hundredths) occurs more than once in the sequence, sorted ascending. -/
def claimCommonValues (values : List ℚ) : List ℚ :=
  (values.insertionSort (· ≤ ·)).filter fun v =>
    1 < values.countP fun w => round (100 * w) = round (100 * v)

/-- WidgetSuggestionEngine::recompute_value_statistics: refresh value_stats of
every record whose extracted value patterns are non-empty.  The source first
collects (index, stats) updates and then applies them; mapping in place is the
same because indices are untouched. -/
def recompute_value_statistics (e : WidgetSuggestionEngine) :
    WidgetSuggestionEngine :=
  { e with
    records := e.records.map fun r =>
      let values := extract_value_patterns e.presets r.features.label_tokens
      if values.isEmpty then r
      else { r with value_stats := some (compute_value_stats values) } }

/-! ## Store operations -/

/-- Merge branch of store_widget: walk the records in insertion order and bump
the first one whose similarity with `features` exceeds 0.95; `none` when no
record qualifies. -/
def bumpFirstRecord (features : WidgetFeatures) (now : ℕ) :
    List WidgetRecord → Option (List WidgetRecord)
  | [] => none
  | r :: rs =>
    if 95 / 100 < calculate_similarity features r.features then
      some ({ r with frequency := r.frequency + 1, last_seen := now } :: rs)
    else
      (bumpFirstRecord features now rs).map fun rs2 => r :: rs2

/-- WidgetSuggestionEngine::store_widget. -/
def store_widget (e : WidgetSuggestionEngine) (widget : Widget) (now : ℕ) :
    WidgetSuggestionEngine :=
  let fe := extract_features e widget
  let features := fe.1
  let e1 := fe.2
  match bumpFirstRecord features now e1.records with
  | some rs => { e1 with records := rs }
  | none =>
    { e1 with
      records := e1.records ++
        [⟨e1.next_id, widget, features, 1, now, none⟩]
      next_id := e1.next_id + 1 }

/-- Merge branch of store_preset: bump usage_count and last_used of the first
preset with the given name; `none` when the name is absent. -/
def bumpFirstPreset (now : ℕ) (name : String) :
    List Preset → Option (List Preset)
  | [] => none
  | q :: qs =>
    if q.name = name then
      some ({ q with usage_count := q.usage_count + 1, last_used := now } :: qs)
    else
      (bumpFirstPreset now name qs).map fun qs2 => q :: qs2

/-- WidgetSuggestionEngine::store_preset. -/
def store_preset (e : WidgetSuggestionEngine) (preset : Preset) (now : ℕ) :
    WidgetSuggestionEngine :=
  let presets2 :=
    match bumpFirstPreset now preset.name e.presets with
    | some l => l
    | none => e.presets ++ [preset]
  recompute_value_statistics { e with presets := presets2 }

/-! ## Suggestions -/

/-- WidgetSuggestionEngine::suggest_values: first collected pattern value as
the primary suggestion (fixed value-confidence 0.8), next three as
alternatives. -/
def suggest_values (e : WidgetSuggestionEngine) (widget : Widget) :
    Option ℚ × ℚ × List ℚ :=
  let values := extract_value_patterns e.presets
    ((widget.label.map tokenize_label).getD [])
  match values with
  | [] => (none, 0, [])
  | v :: rest => (some v, 8 / 10, rest.take 3)

/-- Candidate list of get_suggestions: similarity paired with each record,
sorted by descending similarity (stable), truncated to max_suggestions, and
filtered to similarity above 0.1. -/
def rankedCandidates (e : WidgetSuggestionEngine) (partialWidget : Widget)
    (maxSuggestions : ℕ) : List (ℚ × WidgetRecord) :=
  let partialFeatures := extract_features_query e partialWidget
  let similarities := e.records.map fun r =>
    (calculate_similarity partialFeatures r.features, r)
  let sorted := similarities.insertionSort fun a b => b.1 ≤ a.1
  (sorted.take maxSuggestions).filter fun p => 1 / 10 < p.1

/-- Suggestion built from one ranked candidate. -/
def mkSuggestion (e : WidgetSuggestionEngine) (partialWidget : Widget)
    (p : ℚ × WidgetRecord) : Suggestion :=
  let confidence := p.1 * (7 / 10) + min ((p.2.frequency : ℚ) / 10) (3 / 10)
  let sva := suggest_values e partialWidget
  { widget := p.2.widget
    confidence := confidence
    suggested_value := sva.1
    value_confidence := sva.2.1
    alternative_values := sva.2.2 }

/-- WidgetSuggestionEngine::get_suggestions. -/
def get_suggestions (e : WidgetSuggestionEngine) (partialWidget : Widget)
    (maxSuggestions : ℕ) : List Suggestion :=
  (rankedCandidates e partialWidget maxSuggestions).map
    (mkSuggestion e partialWidget)

/-! # Lemmas about the strsim jaro model -/

theorem count_true_set : ∀ (l : List Bool) (j : ℕ), l[j]? = some false →
    (l.set j true).count true = l.count true + 1
  | [], j, h => by simp at h
  | b :: t, 0, h => by
    simp only [List.getElem?_cons_zero, Option.some_inj] at h
    subst h
    simp [List.count_cons]
  | b :: t, j + 1, h => by
    simp only [List.getElem?_cons_succ] at h
    have ih := count_true_set t j h
    simp only [List.set_cons_succ, List.count_cons, ih]
    omega

theorem jaroFind_sound {ae : Char} {b : List Char} {consumed : List Bool}
    {lo hi j : ℕ} (h : jaroFind ae b consumed lo hi = some j) :
    j < b.length ∧ lo ≤ j ∧ j ≤ hi ∧ b[j]? = some ae ∧
      consumed[j]? = some false := by
  have hmem := List.mem_of_find?_eq_some h
  have hp := List.find?_some h
  simp only [List.mem_range] at hmem
  simp only [Bool.and_eq_true, decide_eq_true_eq] at hp
  exact ⟨hmem, hp.1.1.1, hp.1.1.2, hp.1.2, hp.2⟩

theorem jaroStep_inv {b : List Char} {sr : ℕ} {st : JaroState} {i : ℕ}
    {ae : Char} (h : JaroInv b.length st) :
    JaroInv b.length (jaroStep b sr st i ae) := by
  obtain ⟨hlen, hcnt, htr⟩ := h
  unfold jaroStep
  by_cases hguard : min (b.length - 1) (i + sr) < i - sr
  · rw [if_pos hguard]; exact ⟨hlen, hcnt, htr⟩
  · rw [if_neg hguard]
    cases hf : jaroFind ae b st.consumed (i - sr) (min (b.length - 1) (i + sr)) with
    | none => exact ⟨hlen, hcnt, htr⟩
    | some j =>
      obtain ⟨hjlen, _, _, _, hfalse⟩ := jaroFind_sound hf
      refine ⟨?_, ?_, ?_⟩
      · simpa using hlen
      · have hset := count_true_set st.consumed j hfalse
        simp only [hset]
        omega
      · show (if j < st.bMatchIndex then st.transpositions + 1
            else st.transpositions) ≤ st.matchCount + 1
        by_cases hbm : j < st.bMatchIndex
        · rw [if_pos hbm]; omega
        · rw [if_neg hbm]; omega

theorem jaroStep_matchCount_le (b : List Char) (sr : ℕ) (st : JaroState)
    (i : ℕ) (ae : Char) :
    (jaroStep b sr st i ae).matchCount ≤ st.matchCount + 1 := by
  unfold jaroStep
  by_cases hguard : min (b.length - 1) (i + sr) < i - sr
  · rw [if_pos hguard]; omega
  · rw [if_neg hguard]
    cases hf : jaroFind ae b st.consumed (i - sr) (min (b.length - 1) (i + sr)) with
    | none => dsimp only; omega
    | some j => exact le_refl _

theorem jaroFold_inv (b : List Char) (sr : ℕ) :
    ∀ (l : List (ℕ × Char)) (st : JaroState), JaroInv b.length st →
    JaroInv b.length (l.foldl (fun st p => jaroStep b sr st p.1 p.2) st) ∧
    (l.foldl (fun st p => jaroStep b sr st p.1 p.2) st).matchCount ≤
      st.matchCount + l.length
  | [], st, h => ⟨h, by simp⟩
  | p :: l, st, h => by
    have h1 := @jaroStep_inv b sr st p.1 p.2 h
    have h2 := jaroStep_matchCount_le b sr st p.1 p.2
    have ih := jaroFold_inv b sr l _ h1
    refine ⟨ih.1, ?_⟩
    simp only [List.foldl_cons, List.length_cons]
    omega

theorem jaroLoop_inv (a b : List Char) :
    JaroInv b.length (jaroLoop a b) ∧ (jaroLoop a b).matchCount ≤ a.length := by
  have init : JaroInv b.length (⟨List.replicate b.length false, 0, 0, 0⟩ : JaroState) := by
    refine ⟨by simp, by simp, le_refl 0⟩
  have h := jaroFold_inv b (max a.length b.length / 2 - 1) a.enum _ init
  simpa [jaroLoop, jaroLoopWith, List.enum_length] using h

theorem jaro_nonneg (a b : List Char) : 0 ≤ jaro a b := by
  unfold jaro
  split_ifs with h1 h2 h3 h4 h5
  · norm_num
  · norm_num
  · norm_num
  · norm_num
  · norm_num
  · have hinv := jaroLoop_inv a b
    obtain ⟨⟨hlen, hcnt, htr⟩, hma⟩ := hinv
    have t1 : (0 : ℚ) ≤ ((jaroLoop a b).matchCount : ℚ) / (a.length : ℚ) :=
      div_nonneg (Nat.cast_nonneg _) (Nat.cast_nonneg _)
    have t2 : (0 : ℚ) ≤ ((jaroLoop a b).matchCount : ℚ) / (b.length : ℚ) :=
      div_nonneg (Nat.cast_nonneg _) (Nat.cast_nonneg _)
    have t3 : (0 : ℚ) ≤ (((jaroLoop a b).matchCount : ℚ) -
        ((jaroLoop a b).transpositions : ℚ)) / ((jaroLoop a b).matchCount : ℚ) := by
      apply div_nonneg _ (Nat.cast_nonneg _)
      have := (Nat.cast_le (α := ℚ)).mpr htr
      linarith
    linarith

theorem jaro_le_one (a b : List Char) : jaro a b ≤ 1 := by
  unfold jaro
  split_ifs with h1 h2 h3 h4 h5
  · norm_num
  · norm_num
  · norm_num
  · norm_num
  · norm_num
  · have hinv := jaroLoop_inv a b
    obtain ⟨⟨hlen, hcnt, htr⟩, hma⟩ := hinv
    have hal : a.length ≠ 0 := fun h => h2 (Or.inl h)
    have hbl : b.length ≠ 0 := fun h => h2 (Or.inr h)
    have hm : (jaroLoop a b).matchCount ≠ 0 := h5
    · have hmb : (jaroLoop a b).matchCount ≤ b.length := by
        calc (jaroLoop a b).matchCount ≤ (jaroLoop a b).consumed.count true := hcnt
          _ ≤ (jaroLoop a b).consumed.length := List.count_le_length _ _
          _ = b.length := hlen
      have hapos : (0 : ℚ) < (a.length : ℚ) := by
        exact_mod_cast Nat.pos_of_ne_zero hal
      have hbpos : (0 : ℚ) < (b.length : ℚ) := by
        exact_mod_cast Nat.pos_of_ne_zero hbl
      have hmpos : (0 : ℚ) < ((jaroLoop a b).matchCount : ℚ) := by
        exact_mod_cast Nat.pos_of_ne_zero hm
      have t1 : ((jaroLoop a b).matchCount : ℚ) / (a.length : ℚ) ≤ 1 := by
        rw [div_le_one hapos]
        exact_mod_cast hma
      have t2 : ((jaroLoop a b).matchCount : ℚ) / (b.length : ℚ) ≤ 1 := by
        rw [div_le_one hbpos]
        exact_mod_cast hmb
      have t3 : (((jaroLoop a b).matchCount : ℚ) -
          ((jaroLoop a b).transpositions : ℚ)) / ((jaroLoop a b).matchCount : ℚ) ≤ 1 := by
        rw [div_le_one hmpos]
        have : (0 : ℚ) ≤ ((jaroLoop a b).transpositions : ℚ) := Nat.cast_nonneg _
        linarith
      linarith

theorem find?_range'_eq_some {p : ℕ → Bool} :
    ∀ (m s0 k : ℕ), s0 ≤ k → k < s0 + m →
    (∀ j, s0 ≤ j → j < k → p j = false) → p k = true →
    (List.range' s0 m).find? p = some k
  | 0, s0, k, h1, h2, _, _ => absurd h2 (by omega)
  | m + 1, s0, k, h1, h2, hbefore, hk => by
    rw [List.range'_succ]
    rcases Nat.eq_or_lt_of_le h1 with heq | hlt
    · subst heq
      rw [List.find?_cons_of_pos _ hk]
    · rw [List.find?_cons_of_neg _ (by simp [hbefore s0 (le_refl _) hlt])]
      exact find?_range'_eq_some m (s0 + 1) k hlt (by omega)
        (fun j hj1 hj2 => hbefore j (by omega) hj2) hk

theorem mixedGet_lt {k m j : ℕ} (hj : j < k) :
    (List.replicate k true ++ List.replicate m false)[j]? = some true := by
  simp [List.getElem?_append, List.getElem?_replicate, hj]

theorem mixedGet_at {k m : ℕ} (hm : 1 ≤ m) :
    (List.replicate k true ++ List.replicate m false)[k]? = some false := by
  rw [List.getElem?_append, if_neg (by simp)]
  simp only [List.length_replicate, Nat.sub_self]
  rw [List.getElem?_replicate, if_pos (by omega)]

theorem replicate_append_set : ∀ (k m : ℕ), 1 ≤ m →
    (List.replicate k true ++ List.replicate m false).set k true
      = List.replicate (k + 1) true ++ List.replicate (m - 1) false
  | 0, m, hm => by
    cases m with
    | zero => omega
    | succ m2 => simp [List.replicate_succ]
  | k + 1, m, hm => by
    have ih := replicate_append_set k m hm
    simp only [List.replicate_succ, List.cons_append, List.set_cons_succ, ih]

theorem jaroStep_self (s : List Char) (sr k : ℕ) (c : Char)
    (hk : k < s.length) (hc : s[k]? = some c) :
    jaroStep s sr
      ⟨List.replicate k true ++ List.replicate (s.length - k) false, k, 0, k - 1⟩
      k c
    = ⟨List.replicate (k + 1) true ++ List.replicate (s.length - (k + 1)) false,
        k + 1, 0, k⟩ := by
  unfold jaroStep
  have hguard : ¬ min (s.length - 1) (k + sr) < k - sr := by
    have : k ≤ min (s.length - 1) (k + sr) := le_min (by omega) (by omega)
    omega
  rw [if_neg hguard]
  have hfind : jaroFind c s
      (List.replicate k true ++ List.replicate (s.length - k) false)
      (k - sr) (min (s.length - 1) (k + sr)) = some k := by
    unfold jaroFind
    rw [List.range_eq_range']
    apply find?_range'_eq_some s.length 0 k (Nat.zero_le _) (by omega) _ _
    · intro j _ hjk
      by_cases hjlo : k - sr ≤ j
      · simp [mixedGet_lt hjk]
      · simp [hjlo]
    · have h3 := @mixedGet_at k (s.length - k) (by omega)
      simp [h3, hc]
      omega
  rw [hfind]
  have htr : ¬ k < k - 1 := by omega
  simp only [htr, if_false]
  congr 1
  exact replicate_append_set k (s.length - k) (by omega)

theorem jaroFold_self (s : List Char) (sr : ℕ) :
    ∀ (rest : List Char) (k : ℕ), rest = s.drop k → k ≤ s.length →
    (List.enumFrom k rest).foldl (fun st p => jaroStep s sr st p.1 p.2)
      ⟨List.replicate k true ++ List.replicate (s.length - k) false, k, 0, k - 1⟩
    = ⟨List.replicate s.length true, s.length, 0, s.length - 1⟩
  | [], k, hrest, hk => by
    have hlen : s.length - k = 0 := by
      have := congrArg List.length hrest
      simp [List.length_drop] at this
      omega
    have hkeq : k = s.length := by omega
    subst hkeq
    simp [List.enumFrom, hlen]
  | c :: rest2, k, hrest, hk => by
    have hklt : k < s.length := by
      by_contra hge
      push_neg at hge
      rw [List.drop_eq_nil_of_le hge] at hrest
      exact List.cons_ne_nil c rest2 hrest
    have hck : s[k]? = some c := by
      have h0 : (s.drop k)[0]? = some c := by rw [← hrest]; simp
      rwa [List.getElem?_drop, Nat.add_zero] at h0
    have hrest2 : rest2 = s.drop (k + 1) := by
      have := congrArg List.tail hrest
      simpa [List.tail_drop] using this
    have : List.enumFrom k (c :: rest2) = (k, c) :: List.enumFrom (k + 1) rest2 := rfl
    rw [this, List.foldl_cons, jaroStep_self s sr k c hklt hck]
    exact jaroFold_self s sr rest2 (k + 1) hrest2 (by omega)

theorem jaroLoop_self (s : List Char) :
    jaroLoop s s
      = ⟨List.replicate s.length true, s.length, 0, s.length - 1⟩ := by
  have h := jaroFold_self s (max s.length s.length / 2 - 1) s 0 (by simp)
    (Nat.zero_le _)
  simpa [jaroLoop, jaroLoopWith, List.enum] using h

theorem jaro_self (s : List Char) : jaro s s = 1 := by
  unfold jaro
  rcases Nat.eq_zero_or_pos s.length with h0 | hpos
  · rw [if_pos ⟨h0, h0⟩]
  · rw [if_neg (by omega), if_neg (by omega)]
    by_cases h1 : s.length = 1
    · rw [if_pos ⟨h1, h1⟩, if_pos rfl]
    · rw [if_neg (by tauto)]
      rw [jaroLoop_self]
      simp only []
      rw [if_neg (by omega)]
      have hn : ((s.length : ℚ)) ≠ 0 := Nat.cast_ne_zero.mpr (by omega)
      push_cast
      rw [div_self hn, sub_zero, div_self hn]
      norm_num

theorem jaroWinkler_nonneg (a b : String) : 0 ≤ jaroWinkler a b := by
  unfold jaroWinkler
  apply le_min _ (by norm_num)
  have h1 := jaro_nonneg a.toList b.toList
  have h2 := jaro_le_one a.toList b.toList
  have h3 : (0 : ℚ) ≤ (commonPrefixLen a.toList b.toList : ℚ) := Nat.cast_nonneg _
  nlinarith

theorem jaroWinkler_le_one (a b : String) : jaroWinkler a b ≤ 1 :=
  min_le_right _ _

theorem jaroWinkler_self (a : String) : jaroWinkler a a = 1 := by
  unfold jaroWinkler
  rw [jaro_self]
  norm_num

/-! # Lemmas about the running maxima of calculate_label_similarity -/

theorem foldMax_cons (f : α → ℚ) (acc : ℚ) (y : α) (ys : List α) :
    foldMax f acc (y :: ys) = foldMax f (max acc (f y)) ys := rfl

theorem pairMax_cons (y : String) (ys t2 : List String) (acc : ℚ) :
    pairMax (y :: ys) t2 acc
      = pairMax ys t2 (foldMax (fun b => jaroWinkler y b) acc t2) := rfl

theorem foldMax_ge_acc (f : α → ℚ) (acc : ℚ) (l : List α) :
    acc ≤ foldMax f acc l := by
  induction l generalizing acc with
  | nil => simp [foldMax]
  | cons x xs ih =>
    simp only [foldMax, List.foldl_cons]
    exact le_trans (le_max_left _ _) (ih _)

theorem foldMax_le (f : α → ℚ) {M : ℚ} :
    ∀ (l : List α) (acc : ℚ), acc ≤ M → (∀ x ∈ l, f x ≤ M) →
    foldMax f acc l ≤ M
  | [], acc, hacc, _ => by simpa [foldMax] using hacc
  | x :: xs, acc, hacc, hf => by
    simp only [foldMax, List.foldl_cons]
    exact foldMax_le f xs _ (max_le hacc (hf x (by simp)))
      fun y hy => hf y (by simp [hy])

theorem le_foldMax_of_mem (f : α → ℚ) :
    ∀ (l : List α) (acc : ℚ) {x : α}, x ∈ l → f x ≤ foldMax f acc l
  | [], _, _, hx => absurd hx (List.not_mem_nil _)
  | y :: ys, acc, x, hx => by
    simp only [foldMax, List.foldl_cons]
    rcases List.mem_cons.mp hx with heq | hmem
    · subst heq
      exact le_trans (le_max_right _ _) (foldMax_ge_acc f _ ys)
    · exact le_foldMax_of_mem f ys _ hmem

theorem foldMax_eq_acc_or_mem (f : α → ℚ) :
    ∀ (l : List α) (acc : ℚ),
    foldMax f acc l = acc ∨ ∃ x ∈ l, foldMax f acc l = f x
  | [], acc => Or.inl rfl
  | y :: ys, acc => by
    rw [foldMax_cons]
    rcases foldMax_eq_acc_or_mem f ys (max acc (f y)) with h | ⟨x, hx, hfx⟩
    · rcases max_cases acc (f y) with ⟨hm, _⟩ | ⟨hm, _⟩
      · exact Or.inl (by rw [h, hm])
      · exact Or.inr ⟨y, by simp, by rw [h, hm]⟩
    · exact Or.inr ⟨x, by simp [hx], hfx⟩

theorem pairMax_ge_acc (t1 t2 : List String) (acc : ℚ) :
    acc ≤ pairMax t1 t2 acc := by
  induction t1 generalizing acc with
  | nil => simp [pairMax]
  | cons x xs ih =>
    simp only [pairMax, List.foldl_cons]
    exact le_trans (foldMax_ge_acc _ _ _) (ih _)

theorem pairMax_le {t2 : List String} {M : ℚ} :
    ∀ (t1 : List String) (acc : ℚ), acc ≤ M →
    (∀ a ∈ t1, ∀ b ∈ t2, jaroWinkler a b ≤ M) → pairMax t1 t2 acc ≤ M
  | [], acc, hacc, _ => by simpa [pairMax] using hacc
  | x :: xs, acc, hacc, h => by
    simp only [pairMax, List.foldl_cons]
    exact pairMax_le xs _
      (foldMax_le _ t2 acc hacc fun b hb => h x (by simp) b hb)
      fun a ha b hb => h a (by simp [ha]) b hb

theorem le_pairMax_of_mem {t2 : List String} {a b : String}
    (hb : b ∈ t2) : ∀ (t : List String), a ∈ t → ∀ (acc : ℚ),
    jaroWinkler a b ≤ pairMax t t2 acc
  | [], hx, _ => absurd hx (List.not_mem_nil _)
  | y :: ys, hx, acc => by
    rw [pairMax_cons]
    rcases List.mem_cons.mp hx with heq | hmem
    · subst heq
      exact le_trans (le_foldMax_of_mem _ t2 acc hb)
        (pairMax_ge_acc ys t2 _)
    · exact le_pairMax_of_mem hb ys hmem _

theorem pairMax_eq_acc_or_mem (t2 : List String) :
    ∀ (t1 : List String) (acc : ℚ),
    pairMax t1 t2 acc = acc ∨
      ∃ a ∈ t1, ∃ b ∈ t2, pairMax t1 t2 acc = jaroWinkler a b
  | [], acc => Or.inl rfl
  | y :: ys, acc => by
    rw [pairMax_cons]
    rcases pairMax_eq_acc_or_mem t2 ys (foldMax (fun b => jaroWinkler y b) acc t2)
      with h | ⟨a, ha, b, hb, hab⟩
    · rcases foldMax_eq_acc_or_mem (fun b => jaroWinkler y b) t2 acc
        with h2 | ⟨b, hb, hfb⟩
      · exact Or.inl (by rw [h, h2])
      · exact Or.inr ⟨y, by simp, b, hb, by rw [h, hfb]⟩
    · exact Or.inr ⟨a, by simp [ha], b, hb, hab⟩

/-! # Bounds and reflexivity of the similarity sub-scores -/

theorem calculate_label_similarity_nonneg (t1 t2 : List String) :
    0 ≤ calculate_label_similarity t1 t2 := by
  unfold calculate_label_similarity
  split_ifs
  · norm_num
  · norm_num
  · exact le_trans (pairMax_ge_acc t1 t2 0) (le_max_left _ _)

theorem calculate_label_similarity_le_one (t1 t2 : List String) :
    calculate_label_similarity t1 t2 ≤ 1 := by
  unfold calculate_label_similarity
  split_ifs
  · norm_num
  · norm_num
  · exact max_le
      (pairMax_le t1 0 (by norm_num) fun a _ b _ => jaroWinkler_le_one a b)
      (jaroWinkler_le_one _ _)

theorem calculate_label_similarity_self (t : List String) :
    calculate_label_similarity t t = 1 := by
  unfold calculate_label_similarity
  by_cases ht : t.isEmpty
  · rw [if_pos ⟨ht, ht⟩]
  · rw [if_neg (by tauto), if_neg (by tauto)]
    rw [jaroWinkler_self]
    exact max_eq_right
      (pairMax_le t 0 (by norm_num) fun a _ b _ => jaroWinkler_le_one a b)

theorem sub_min_one_nonneg (x : ℚ) : 0 ≤ 1 - min x 1 := by
  have := min_le_right x 1
  linarith

theorem sub_min_one_le_one {x : ℚ} (hx : 0 ≤ x) : 1 - min x 1 ≤ 1 := by
  have : (0 : ℚ) ≤ min x 1 := le_min hx (by norm_num)
  linarith

theorem calculate_range_similarity_nonneg (f1 f2 : WidgetFeatures) :
    0 ≤ calculate_range_similarity f1 f2 := by
  have h1 := sub_min_one_nonneg (|f1.range - f2.range| / max f1.range f2.range)
  have h2 := sub_min_one_nonneg
    ((|f1.min_value - f2.min_value| + |f1.max_value - f2.max_value|) /
      (2 * max (f1.max_value - f1.min_value) (f2.max_value - f2.min_value)))
  simp only [calculate_range_similarity]
  split_ifs <;> linarith

theorem calculate_range_similarity_le_one (f1 f2 : WidgetFeatures) :
    calculate_range_similarity f1 f2 ≤ 1 := by
  simp only [calculate_range_similarity]
  split_ifs with h1 h2 h3
  · have hx1 : (0 : ℚ) ≤ |f1.range - f2.range| / max f1.range f2.range :=
      div_nonneg (abs_nonneg _) (le_of_lt h1)
    have hx2 : (0 : ℚ) ≤
        (|f1.min_value - f2.min_value| + |f1.max_value - f2.max_value|) /
          (2 * max (f1.max_value - f1.min_value) (f2.max_value - f2.min_value)) :=
      div_nonneg (by positivity) (by linarith)
    have t1 := sub_min_one_le_one hx1
    have t2 := sub_min_one_le_one hx2
    linarith
  · have hx1 : (0 : ℚ) ≤ |f1.range - f2.range| / max f1.range f2.range :=
      div_nonneg (abs_nonneg _) (le_of_lt h1)
    have t1 := sub_min_one_le_one hx1
    linarith
  · have hx2 : (0 : ℚ) ≤
        (|f1.min_value - f2.min_value| + |f1.max_value - f2.max_value|) /
          (2 * max (f1.max_value - f1.min_value) (f2.max_value - f2.min_value)) :=
      div_nonneg (by positivity) (by linarith)
    have t2 := sub_min_one_le_one hx2
    linarith
  · norm_num

theorem calculate_range_similarity_self (f : WidgetFeatures) :
    calculate_range_similarity f f = 1 := by
  simp only [calculate_range_similarity, sub_self, abs_zero, max_self,
    zero_add, zero_div]
  split_ifs <;> norm_num

/-! # Claims C7, C8, C4 -/

/-- C7: for every pair of feature vectors, calculate_similarity returns a
value in the closed interval [0, 1]. -/
theorem C7_similarity_in_unit_interval (f1 f2 : WidgetFeatures) :
    0 ≤ calculate_similarity f1 f2 ∧ calculate_similarity f1 f2 ≤ 1 := by
  have hl0 := calculate_label_similarity_nonneg f1.label_tokens f2.label_tokens
  have hl1 := calculate_label_similarity_le_one f1.label_tokens f2.label_tokens
  have hr0 := calculate_range_similarity_nonneg f1 f2
  have hr1 := calculate_range_similarity_le_one f1 f2
  have hd : 0 ≤ display_type_similarity f1 f2 ∧
      display_type_similarity f1 f2 ≤ 1 := by
    unfold display_type_similarity
    split_ifs <;> norm_num
  simp only [calculate_similarity]
  constructor
  · rw [div_nonneg_iff]
    left
    constructor
    · have hg : (0 : ℚ) ≤ (if f1.is_generated = f2.is_generated
          then (1 : ℚ) else 0) := by split_ifs <;> norm_num
      nlinarith [hd.1]
    · norm_num
  · rw [div_le_one (by norm_num)]
    have hg : (if f1.is_generated = f2.is_generated then (1 : ℚ) else 0) ≤ 1 := by
      split_ifs <;> norm_num
    nlinarith [hd.2, hd.1]

/-- C8: for every feature vector F, calculate_similarity F F = 1.0. -/
theorem C8_similarity_self (f : WidgetFeatures) :
    calculate_similarity f f = 1 := by
  simp only [calculate_similarity, display_type_similarity,
    calculate_label_similarity_self, calculate_range_similarity_self,
    if_pos rfl]
  norm_num

/-- C4 (claim as stated is false): with both display-type identifiers equal
to 0, the display-type sub-score is 1.0, not the 0.0 demanded by the claim for
identifiers that are equal but not nonzero. -/
theorem C4_counterexample :
    (⟨[], 0, 1, 1, 0, 0, [], 1 / 2⟩ : WidgetFeatures).display_type_hash = 0 ∧
    display_type_similarity (⟨[], 0, 1, 1, 0, 0, [], 1 / 2⟩ : WidgetFeatures)
      (⟨[], 0, 1, 1, 0, 0, [], 1 / 2⟩ : WidgetFeatures) = 1 ∧
    display_type_similarity (⟨[], 0, 1, 1, 0, 0, [], 1 / 2⟩ : WidgetFeatures)
      (⟨[], 0, 1, 1, 0, 0, [], 1 / 2⟩ : WidgetFeatures) ≠ 0 := by
  refine ⟨rfl, by norm_num [display_type_similarity], by norm_num [display_type_similarity]⟩

/-- C4 (amended): the display-type sub-score entering the weighted similarity
is 1.0 exactly when the two display_type_hash identifiers are equal —
including when both are 0 — and 0.0 exactly when they differ. -/
theorem C4_amended_display_similarity (f1 f2 : WidgetFeatures) :
    (display_type_similarity f1 f2 = 1 ↔
      f1.display_type_hash = f2.display_type_hash) ∧
    (display_type_similarity f1 f2 = 0 ↔
      f1.display_type_hash ≠ f2.display_type_hash) := by
  unfold display_type_similarity
  split_ifs with h <;> simp [h]

/-! # Claims C5, C9, C10 -/

/-- C5 (claim as stated is false): at the token sequences ["abcd", "abce"]
and ["abcd"], the code computes 1 (the running maximum), while the
thresholded per-token averaging described by the claim gives 113/120. -/
theorem C5_counterexample :
    calculate_label_similarity ["abcd", "abce"] ["abcd"] = 1 ∧
    specAvgLabelSimilarity ["abcd", "abce"] ["abcd"] = 113 / 120 ∧
    calculate_label_similarity ["abcd", "abce"] ["abcd"] ≠
      specAvgLabelSimilarity ["abcd", "abce"] ["abcd"] := by
  refine ⟨?_, ?_, ?_⟩ <;> with_unfolding_all decide

/-- C5 (amended): for two non-empty token sequences the label similarity is
the maximum of the jaro_winkler scores of all token pairs together with the
jaro_winkler score of the two space-joined labels — it bounds each of those
scores from above and is attained by one of them.  No per-token 0.7 threshold
or averaging is applied. -/
theorem C5_amended_label_similarity_max (t1 t2 : List String)
    (h1 : t1 ≠ []) (h2 : t2 ≠ []) :
    (∀ a ∈ t1, ∀ b ∈ t2,
      jaroWinkler a b ≤ calculate_label_similarity t1 t2) ∧
    jaroWinkler (joinSpace t1) (joinSpace t2) ≤
      calculate_label_similarity t1 t2 ∧
    (calculate_label_similarity t1 t2 =
        jaroWinkler (joinSpace t1) (joinSpace t2) ∨
      ∃ a ∈ t1, ∃ b ∈ t2,
        calculate_label_similarity t1 t2 = jaroWinkler a b) := by
  have hne1 : ¬ t1.isEmpty = true := by simpa using h1
  have hne2 : ¬ t2.isEmpty = true := by simpa using h2
  unfold calculate_label_similarity
  rw [if_neg (by tauto), if_neg (by tauto)]
  refine ⟨?_, le_max_right _ _, ?_⟩
  · intro a ha b hb
    exact le_trans (le_pairMax_of_mem hb t1 ha 0) (le_max_left _ _)
  · rcases max_cases (pairMax t1 t2 0)
      (jaroWinkler (joinSpace t1) (joinSpace t2)) with ⟨hm, hge⟩ | ⟨hm, _⟩
    · rcases pairMax_eq_acc_or_mem t2 t1 0 with hacc | ⟨a, ha, b, hb, hab⟩
      · left
        have hfull := jaroWinkler_nonneg (joinSpace t1) (joinSpace t2)
        rw [hm, hacc]
        rw [hacc] at hge
        linarith
      · right
        exact ⟨a, ha, b, hb, hm.trans hab⟩
    · left
      exact hm

/-- Witness for C5_amended_label_similarity_max at the concrete token lists
["master", "volume"] and ["volume"]. -/
theorem C5_amended_label_similarity_max_witness :
    ((["master", "volume"] : List String) ≠ [] ∧
      (["volume"] : List String) ≠ []) ∧
    ((∀ a ∈ ["master", "volume"], ∀ b ∈ ["volume"],
      jaroWinkler a b ≤ calculate_label_similarity ["master", "volume"] ["volume"]) ∧
    jaroWinkler (joinSpace ["master", "volume"]) (joinSpace ["volume"]) ≤
      calculate_label_similarity ["master", "volume"] ["volume"] ∧
    (calculate_label_similarity ["master", "volume"] ["volume"] =
        jaroWinkler (joinSpace ["master", "volume"]) (joinSpace ["volume"]) ∨
      ∃ a ∈ ["master", "volume"], ∃ b ∈ ["volume"],
        calculate_label_similarity ["master", "volume"] ["volume"] =
          jaroWinkler a b)) :=
  ⟨⟨by simp, by simp⟩,
    C5_amended_label_similarity_max ["master", "volume"] ["volume"]
      (by simp) (by simp)⟩

/-- C9 (claim as stated is false): over the observations [10, 20, 30, 40, 50]
no rounded key recurs, so the claim predicts an empty common_values list, yet
the code returns all five observations (the first ten sorted values). -/
theorem C9_counterexample :
    (compute_value_stats [10, 20, 30, 40, 50]).common_values
      = [10, 20, 30, 40, 50] ∧
    claimCommonValues [10, 20, 30, 40, 50] = [] ∧
    (compute_value_stats [10, 20, 30, 40, 50]).common_values ≠
      claimCommonValues [10, 20, 30, 40, 50] := by
  refine ⟨?_, ?_, ?_⟩ <;> with_unfolding_all decide

/-- C9 (amended): for a non-empty observation sequence, common_values is the
first ten observations in ascending order — sorted, of length
min 10 (number of observations), every element an observation — with no
recurrence filtering at all. -/
theorem C9_amended_common_values (values : List ℚ) (h : values ≠ []) :
    (compute_value_stats values).common_values
      = (values.insertionSort (· ≤ ·)).take 10 ∧
    (compute_value_stats values).common_values.Sorted (· ≤ ·) ∧
    (compute_value_stats values).common_values.length
      = min 10 values.length ∧
    ∀ x ∈ (compute_value_stats values).common_values, x ∈ values := by
  have hcv : (compute_value_stats values).common_values
      = (values.insertionSort (· ≤ ·)).take 10 := rfl
  refine ⟨hcv, ?_, ?_, ?_⟩
  · rw [hcv]
    exact (List.sorted_insertionSort (· ≤ ·) values).sublist
      (List.take_sublist _ _)
  · rw [hcv, List.length_take, List.length_insertionSort]
  · intro x hx
    rw [hcv] at hx
    have := (List.take_sublist 10 (values.insertionSort (· ≤ ·))).mem hx
    exact (List.mem_insertionSort (· ≤ ·)).mp this

/-- Witness for C9_amended_common_values at the concrete observation list
[3, 1, 2]. -/
theorem C9_amended_common_values_witness :
    (([3, 1, 2] : List ℚ) ≠ []) ∧
    ((compute_value_stats [3, 1, 2]).common_values
      = (([3, 1, 2] : List ℚ).insertionSort (· ≤ ·)).take 10 ∧
    (compute_value_stats [3, 1, 2]).common_values.Sorted (· ≤ ·) ∧
    (compute_value_stats [3, 1, 2]).common_values.length
      = min 10 ([3, 1, 2] : List ℚ).length ∧
    ∀ x ∈ (compute_value_stats [3, 1, 2]).common_values,
      x ∈ ([3, 1, 2] : List ℚ)) :=
  ⟨by simp, C9_amended_common_values [3, 1, 2] (by simp)⟩

/-- C10: in an engine that has not yet observed any display type, extracting
features (as store_widget does) for a widget with a known display type
assigns that display type identifier 0 — the identifier also used when the
display type is absent — so the display-type sub-score against the features
of a widget without display type is 1.0. -/
theorem C10_first_display_type_hash_zero
    (e e2 : WidgetSuggestionEngine) (w w2 : Widget) (dt : String)
    (h1 : e.display_types = []) (h2 : w.display_type = some dt)
    (h3 : w2.display_type = none) :
    (extract_features e w).1.display_type_hash = 0 ∧
    display_type_similarity (extract_features e w).1
      (extract_features_query e2 w2) = 1 := by
  have hhash : (extract_features e w).1.display_type_hash = 0 := by
    simp [extract_features, h2, registerDisplayType, lookupDisplayType, h1]
  have hhash2 : (extract_features_query e2 w2).display_type_hash = 0 := by
    simp [extract_features_query, h3]
  exact ⟨hhash, by simp [display_type_similarity, hhash, hhash2]⟩

/-- Witness for C10_first_display_type_hash_zero on the fresh engine and a
slider widget. -/
theorem C10_first_display_type_hash_zero_witness :
    (WidgetSuggestionEngine.new.display_types = [] ∧
      (Widget.mk (some "Volume") (some 0) (some 100) (some false)
        (some "slider") (some 50)).display_type = some "slider" ∧
      (Widget.mk none none none none none none).display_type = none) ∧
    ((extract_features WidgetSuggestionEngine.new
        (Widget.mk (some "Volume") (some 0) (some 100) (some false)
          (some "slider") (some 50))).1.display_type_hash = 0 ∧
      display_type_similarity
        (extract_features WidgetSuggestionEngine.new
          (Widget.mk (some "Volume") (some 0) (some 100) (some false)
            (some "slider") (some 50))).1
        (extract_features_query WidgetSuggestionEngine.new
          (Widget.mk none none none none none none)) = 1) :=
  ⟨⟨rfl, rfl, rfl⟩,
    C10_first_display_type_hash_zero WidgetSuggestionEngine.new
      WidgetSuggestionEngine.new _ _ "slider" rfl rfl rfl⟩

/-! # Claim C2: ordering of get_suggestions -/

instance instIsTotalSimDesc :
    IsTotal (ℚ × WidgetRecord) fun a b => b.1 ≤ a.1 :=
  ⟨fun a b => le_total b.1 a.1⟩

instance instIsTransSimDesc :
    IsTrans (ℚ × WidgetRecord) fun a b => b.1 ≤ a.1 :=
  ⟨fun _ _ _ h1 h2 => le_trans h2 h1⟩

/-- C2 (claim as stated is false): with two records of similarities 1 and
9/10 and frequencies 1 and 10, the suggestions come back ordered by
similarity with confidences [4/5, 93/100], which is not non-increasing — the
frequency-dependent part of the confidence can outweigh the similarity
ordering. -/
theorem C2_counterexample :
    ((get_suggestions
        ⟨[⟨1, ⟨none, none, none, none, none, none⟩,
            ⟨[], 0, 1, 1, 0, 0, [], 1 / 2⟩, 1, 0, none⟩,
          ⟨2, ⟨none, none, none, none, none, none⟩,
            ⟨[], 0, 1, 1, 1, 0, [], 1 / 2⟩, 10, 0, none⟩], [], [], 3⟩
        ⟨none, none, none, none, none, none⟩ 5).map
      (fun s => s.confidence) = [4 / 5, 93 / 100]) ∧
    ¬ ((get_suggestions
        ⟨[⟨1, ⟨none, none, none, none, none, none⟩,
            ⟨[], 0, 1, 1, 0, 0, [], 1 / 2⟩, 1, 0, none⟩,
          ⟨2, ⟨none, none, none, none, none, none⟩,
            ⟨[], 0, 1, 1, 1, 0, [], 1 / 2⟩, 10, 0, none⟩], [], [], 3⟩
        ⟨none, none, none, none, none, none⟩ 5).Pairwise
      fun s t => t.confidence ≤ s.confidence) := by
  constructor <;> with_unfolding_all decide

/-- C2 (amended): get_suggestions returns at most the requested number of
suggestions; the returned list is the image of the ranked candidate list,
which is ordered by non-increasing similarity (not by non-increasing
confidence) and contains only candidates with similarity above 0.1. -/
theorem C2_amended_get_suggestions (e : WidgetSuggestionEngine)
    (pw : Widget) (n : ℕ) :
    (get_suggestions e pw n).length ≤ n ∧
    ((rankedCandidates e pw n).map fun p => p.1).Sorted (fun a b => b ≤ a) ∧
    (∀ p ∈ rankedCandidates e pw n, 1 / 10 < p.1) ∧
    get_suggestions e pw n =
      (rankedCandidates e pw n).map (mkSuggestion e pw) := by
  have hsub : List.Sublist (rankedCandidates e pw n)
      ((e.records.map fun r =>
          (calculate_similarity (extract_features_query e pw) r.features,
            r)).insertionSort fun a b => b.1 ≤ a.1) := by
    simp only [rankedCandidates]
    exact (List.filter_sublist _).trans (List.take_sublist _ _)
  have hsorted : (((e.records.map fun r =>
      (calculate_similarity (extract_features_query e pw) r.features,
        r)).insertionSort fun a b => b.1 ≤ a.1)).Pairwise
        (fun a b : ℚ × WidgetRecord => b.1 ≤ a.1) :=
    List.sorted_insertionSort (fun (a b : ℚ × WidgetRecord) => b.1 ≤ a.1) _
  refine ⟨?_, ?_, ?_, rfl⟩
  · have h1 : (get_suggestions e pw n).length
        = (rankedCandidates e pw n).length := by
      simp [get_suggestions]
    rw [h1]
    simp only [rankedCandidates]
    exact le_trans (List.length_filter_le _ _)
      (by rw [List.length_take]; exact min_le_left _ _)
  · exact List.pairwise_map.mpr (hsorted.sublist hsub)
  · intro p hp
    simp only [rankedCandidates] at hp
    have := (List.mem_filter.mp hp).2
    simpa using this

/-! # Claim C1: what the merge branch of store_widget does -/

theorem store_widget_eq (e : WidgetSuggestionEngine) (w : Widget) (t : ℕ) :
    store_widget e w t =
      match bumpFirstRecord (extract_features e w).1 t e.records with
      | some rs => { (extract_features e w).2 with records := rs }
      | none =>
        { (extract_features e w).2 with
          records := e.records ++
            [⟨e.next_id, w, (extract_features e w).1, 1, t, none⟩]
          next_id := e.next_id + 1 } := rfl

theorem bumpFirstRecord_some_of_exists (f : WidgetFeatures) (t : ℕ) :
    ∀ (l : List WidgetRecord),
    (∃ r ∈ l, 95 / 100 < calculate_similarity f r.features) →
    ∃ l1 r l2, l = l1 ++ r :: l2 ∧
      (∀ q ∈ l1, ¬ 95 / 100 < calculate_similarity f q.features) ∧
      95 / 100 < calculate_similarity f r.features ∧
      bumpFirstRecord f t l =
        some (l1 ++
          { r with frequency := r.frequency + 1, last_seen := t } :: l2)
  | [], h => absurd h (by simp)
  | q :: qs, h => by
    by_cases hq : 95 / 100 < calculate_similarity f q.features
    · exact ⟨[], q, qs, rfl, by simp, hq, by simp [bumpFirstRecord, hq]⟩
    · have hex : ∃ r ∈ qs, 95 / 100 < calculate_similarity f r.features := by
        rcases h with ⟨r, hr, hrs⟩
        rcases List.mem_cons.mp hr with heq | hmem
        · exact absurd (heq ▸ hrs) hq
        · exact ⟨r, hmem, hrs⟩
      obtain ⟨l1, r, l2, heq, hall, hsim, hbump⟩ :=
        bumpFirstRecord_some_of_exists f t qs hex
      refine ⟨q :: l1, r, l2, by simp [heq], ?_, hsim, ?_⟩
      · intro x hx
        rcases List.mem_cons.mp hx with hxq | hxl
        · exact hxq ▸ hq
        · exact hall x hxl
      · simp [bumpFirstRecord, hq, hbump]

/-- C1 (claim as stated is false): on a merge, store_widget does not
overwrite the record current value with the known incoming one and does not
append the incoming value to the value-pattern sequence.  Here the incoming
widget has current value 2 and similarity 1 with the stored record, yet the
merged record still has current value 1 and empty value patterns. -/
theorem C1_counterexample :
    (95 / 100 < calculate_similarity
      (extract_features
        (⟨[⟨7, ⟨none, none, none, none, none, some 1⟩,
            ⟨[], 0, 1, 1, 0, 0, [], 1 / 2⟩, 1, 0, none⟩], [], [], 8⟩ :
              WidgetSuggestionEngine)
        ⟨none, none, none, none, none, some 2⟩).1
      (⟨[], 0, 1, 1, 0, 0, [], 1 / 2⟩ : WidgetFeatures)) ∧
    ((store_widget
        (⟨[⟨7, ⟨none, none, none, none, none, some 1⟩,
            ⟨[], 0, 1, 1, 0, 0, [], 1 / 2⟩, 1, 0, none⟩], [], [], 8⟩ :
              WidgetSuggestionEngine)
        ⟨none, none, none, none, none, some 2⟩ 9).records.map
      fun r => r.widget.current_value) = [some 1] ∧
    ((store_widget
        (⟨[⟨7, ⟨none, none, none, none, none, some 1⟩,
            ⟨[], 0, 1, 1, 0, 0, [], 1 / 2⟩, 1, 0, none⟩], [], [], 8⟩ :
              WidgetSuggestionEngine)
        ⟨none, none, none, none, none, some 2⟩ 9).records.map
      fun r => r.features.value_patterns) = [[]] ∧
    (⟨none, none, none, none, none, some 2⟩ : Widget).current_value
      = some 2 := by
  refine ⟨?_, ?_, ?_, rfl⟩ <;> with_unfolding_all decide

/-- C1 (amended): if some stored record has similarity above the 0.95 merge
threshold with the features extracted from the incoming widget, store_widget
stops at the first such record, increments its frequency and sets its
last-seen timestamp, and changes nothing else: the record widget snapshot and
features (value patterns included) are untouched, the surrounding records,
the presets and next_id are unchanged.  No label or display-type backfill, no
current-value overwrite and no value-pattern append takes place. -/
theorem C1_amended_store_widget_merge (e : WidgetSuggestionEngine)
    (w : Widget) (t : ℕ)
    (h : ∃ r ∈ e.records,
      95 / 100 < calculate_similarity (extract_features e w).1 r.features) :
    ∃ l1 r l2, e.records = l1 ++ r :: l2 ∧
      (∀ q ∈ l1,
        ¬ 95 / 100 < calculate_similarity (extract_features e w).1 q.features) ∧
      95 / 100 < calculate_similarity (extract_features e w).1 r.features ∧
      (store_widget e w t).records =
        l1 ++ { r with frequency := r.frequency + 1, last_seen := t } :: l2 ∧
      (store_widget e w t).presets = e.presets ∧
      (store_widget e w t).next_id = e.next_id := by
  obtain ⟨l1, r, l2, heq, hall, hsim, hbump⟩ :=
    bumpFirstRecord_some_of_exists (extract_features e w).1 t e.records h
  refine ⟨l1, r, l2, heq, hall, hsim, ?_, ?_, ?_⟩ <;>
    (rw [store_widget_eq, hbump])
  · rfl
  · rfl

set_option maxHeartbeats 1000000 in
/-- Witness for C1_amended_store_widget_merge: a one-record engine and an
incoming widget of similarity 1. -/
theorem C1_amended_store_widget_merge_witness :
    (∃ r ∈ (⟨[⟨7, ⟨none, none, none, none, none, some 1⟩,
          ⟨[], 0, 1, 1, 0, 0, [], 1 / 2⟩, 1, 0, none⟩], [], [], 8⟩ :
            WidgetSuggestionEngine).records,
      95 / 100 < calculate_similarity
        (extract_features
          (⟨[⟨7, ⟨none, none, none, none, none, some 1⟩,
              ⟨[], 0, 1, 1, 0, 0, [], 1 / 2⟩, 1, 0, none⟩], [], [], 8⟩ :
                WidgetSuggestionEngine)
          ⟨none, none, none, none, none, some 2⟩).1 r.features) ∧
    (∃ l1 r l2,
      (⟨[⟨7, ⟨none, none, none, none, none, some 1⟩,
          ⟨[], 0, 1, 1, 0, 0, [], 1 / 2⟩, 1, 0, none⟩], [], [], 8⟩ :
            WidgetSuggestionEngine).records = l1 ++ r :: l2 ∧
      (∀ q ∈ l1,
        ¬ 95 / 100 < calculate_similarity
          (extract_features
            (⟨[⟨7, ⟨none, none, none, none, none, some 1⟩,
                ⟨[], 0, 1, 1, 0, 0, [], 1 / 2⟩, 1, 0, none⟩], [], [], 8⟩ :
                  WidgetSuggestionEngine)
            ⟨none, none, none, none, none, some 2⟩).1 q.features) ∧
      95 / 100 < calculate_similarity
        (extract_features
          (⟨[⟨7, ⟨none, none, none, none, none, some 1⟩,
              ⟨[], 0, 1, 1, 0, 0, [], 1 / 2⟩, 1, 0, none⟩], [], [], 8⟩ :
                WidgetSuggestionEngine)
          ⟨none, none, none, none, none, some 2⟩).1 r.features ∧
      (store_widget
        (⟨[⟨7, ⟨none, none, none, none, none, some 1⟩,
            ⟨[], 0, 1, 1, 0, 0, [], 1 / 2⟩, 1, 0, none⟩], [], [], 8⟩ :
              WidgetSuggestionEngine)
        ⟨none, none, none, none, none, some 2⟩ 9).records =
        l1 ++ { r with frequency := r.frequency + 1, last_seen := 9 } :: l2 ∧
      (store_widget
        (⟨[⟨7, ⟨none, none, none, none, none, some 1⟩,
            ⟨[], 0, 1, 1, 0, 0, [], 1 / 2⟩, 1, 0, none⟩], [], [], 8⟩ :
              WidgetSuggestionEngine)
        ⟨none, none, none, none, none, some 2⟩ 9).presets = [] ∧
      (store_widget
        (⟨[⟨7, ⟨none, none, none, none, none, some 1⟩,
            ⟨[], 0, 1, 1, 0, 0, [], 1 / 2⟩, 1, 0, none⟩], [], [], 8⟩ :
              WidgetSuggestionEngine)
        ⟨none, none, none, none, none, some 2⟩ 9).next_id = 8) := by
  have hsim : 95 / 100 < calculate_similarity
      (extract_features
        (⟨[⟨7, ⟨none, none, none, none, none, some 1⟩,
            ⟨[], 0, 1, 1, 0, 0, [], 1 / 2⟩, 1, 0, none⟩], [], [], 8⟩ :
              WidgetSuggestionEngine)
        ⟨none, none, none, none, none, some 2⟩).1
      (⟨[], 0, 1, 1, 0, 0, [], 1 / 2⟩ : WidgetFeatures) := by
    with_unfolding_all decide
  have hex : ∃ r ∈ (⟨[⟨7, ⟨none, none, none, none, none, some 1⟩,
        ⟨[], 0, 1, 1, 0, 0, [], 1 / 2⟩, 1, 0, none⟩], [], [], 8⟩ :
          WidgetSuggestionEngine).records,
      95 / 100 < calculate_similarity
        (extract_features
          (⟨[⟨7, ⟨none, none, none, none, none, some 1⟩,
              ⟨[], 0, 1, 1, 0, 0, [], 1 / 2⟩, 1, 0, none⟩], [], [], 8⟩ :
                WidgetSuggestionEngine)
          ⟨none, none, none, none, none, some 2⟩).1 r.features :=
    ⟨⟨7, ⟨none, none, none, none, none, some 1⟩,
        ⟨[], 0, 1, 1, 0, 0, [], 1 / 2⟩, 1, 0, none⟩, by simp, hsim⟩
  exact ⟨hex, C1_amended_store_widget_merge _ _ 9 hex⟩

/-! # Claim C3: what store_preset does -/

theorem store_preset_presets (e : WidgetSuggestionEngine) (p : Preset)
    (t : ℕ) :
    (store_preset e p t).presets =
      match bumpFirstPreset t p.name e.presets with
      | some l => l
      | none => e.presets ++ [p] := rfl

theorem bumpFirstPreset_none (t : ℕ) (name : String) :
    ∀ (l : List Preset), (∀ q ∈ l, q.name ≠ name) →
    bumpFirstPreset t name l = none
  | [], _ => rfl
  | q :: qs, h => by
    have hq : ¬ q.name = name := h q (by simp)
    have ih := bumpFirstPreset_none t name qs fun x hx => h x (by simp [hx])
    simp [bumpFirstPreset, hq, ih]

theorem bumpFirstPreset_some_of_exists (t : ℕ) (name : String) :
    ∀ (l : List Preset), (∃ q ∈ l, q.name = name) →
    ∃ l1 q l2, l = l1 ++ q :: l2 ∧
      (∀ x ∈ l1, x.name ≠ name) ∧ q.name = name ∧
      bumpFirstPreset t name l =
        some (l1 ++
          { q with usage_count := q.usage_count + 1, last_used := t } :: l2)
  | [], h => absurd h (by simp)
  | q :: qs, h => by
    by_cases hq : q.name = name
    · exact ⟨[], q, qs, rfl, by simp, hq, by simp [bumpFirstPreset, hq]⟩
    · have hex : ∃ x ∈ qs, x.name = name := by
        rcases h with ⟨x, hx, hxn⟩
        rcases List.mem_cons.mp hx with heq | hmem
        · exact absurd (heq ▸ hxn) hq
        · exact ⟨x, hmem, hxn⟩
      obtain ⟨l1, x, l2, heq, hall, hxn, hbump⟩ :=
        bumpFirstPreset_some_of_exists t name qs hex
      refine ⟨q :: l1, x, l2, by simp [heq], ?_, hxn, ?_⟩
      · intro y hy
        rcases List.mem_cons.mp hy with hyq | hyl
        · exact hyq ▸ hq
        · exact hall y hyl
      · simp [bumpFirstPreset, hq, hbump]

theorem bumpFirstPreset_append (t : ℕ) (name : String) (p : Preset)
    (hp : p.name = name) :
    ∀ (l : List Preset), (∀ q ∈ l, q.name ≠ name) →
    bumpFirstPreset t name (l ++ [p]) =
      some (l ++
        [{ p with usage_count := p.usage_count + 1, last_used := t }])
  | [], _ => by simp [bumpFirstPreset, hp]
  | q :: qs, h => by
    have hq : ¬ q.name = name := h q (by simp)
    have ih := bumpFirstPreset_append t name p hp qs
      fun x hx => h x (by simp [hx])
    simp [bumpFirstPreset, hq, ih]

/-- C3 (claim as stated is false): storing a preset under an existing name
does not replace the stored value list and description; it only bumps the
usage counter and the last-used timestamp.  Storing "My Setup" a second time
with description B and an empty value list leaves the original description A
and the original one-entry value list in place. -/
theorem C3_counterexample :
    ((store_preset (store_preset WidgetSuggestionEngine.new
        ⟨"My Setup", some "A", [⟨"w1", some "Volume", 75, 1⟩], some "u", 1, 100⟩ 5)
        ⟨"My Setup", some "B", [], some "u", 1, 101⟩ 9).presets.map
      fun q => (q.name, q.description, q.widget_values, q.usage_count,
        q.last_used))
      = [("My Setup", some "A", [⟨"w1", some "Volume", 75, 1⟩], 2, 9)] ∧
    (⟨"My Setup", some "B", [], some "u", 1, 101⟩ : Preset).description
      = some "B" ∧
    (⟨"My Setup", some "B", [], some "u", 1, 101⟩ : Preset).widget_values
      = [] := by
  refine ⟨?_, rfl, rfl⟩
  with_unfolding_all decide

/-- C3 (amended): store_preset appends the preset when its name is new;
when the name exists it stops at the first preset with that name, increments
its usage counter and refreshes its last-used timestamp, leaving the number
of presets, the stored description and the stored value list unchanged.  In
particular a preset with usage_count 1 stored twice under a fresh name leaves
exactly one preset of that name, with usage_count 2. -/
theorem C3_amended_store_preset (e : WidgetSuggestionEngine) (p : Preset)
    (t t2 : ℕ) :
    ((∀ q ∈ e.presets, q.name ≠ p.name) →
      (store_preset e p t).presets = e.presets ++ [p]) ∧
    ((∃ q ∈ e.presets, q.name = p.name) →
      ∃ l1 q l2, e.presets = l1 ++ q :: l2 ∧
        (∀ x ∈ l1, x.name ≠ p.name) ∧ q.name = p.name ∧
        (store_preset e p t).presets =
          l1 ++ { q with usage_count := q.usage_count + 1, last_used := t } :: l2) ∧
    ((∀ q ∈ e.presets, q.name ≠ p.name) → p.usage_count = 1 →
      ((store_preset (store_preset e p t) p t2).presets.filter
        fun q => q.name = p.name) =
        [{ p with usage_count := 2, last_used := t2 }]) := by
  refine ⟨?_, ?_, ?_⟩
  · intro hnone
    rw [store_preset_presets, bumpFirstPreset_none t p.name e.presets hnone]
  · intro hex
    obtain ⟨l1, q, l2, heq, hall, hqn, hbump⟩ :=
      bumpFirstPreset_some_of_exists t p.name e.presets hex
    refine ⟨l1, q, l2, heq, hall, hqn, ?_⟩
    rw [store_preset_presets, hbump]
  · intro hnone hp1
    have h1 : (store_preset e p t).presets = e.presets ++ [p] := by
      rw [store_preset_presets, bumpFirstPreset_none t p.name e.presets hnone]
    have h2 : (store_preset (store_preset e p t) p t2).presets =
        e.presets ++
          [{ p with usage_count := p.usage_count + 1, last_used := t2 }] := by
      rw [store_preset_presets, h1,
        bumpFirstPreset_append t2 p.name p rfl e.presets hnone]
    rw [h2, hp1, List.filter_append]
    have hfe : (e.presets.filter fun q => q.name = p.name) = [] := by
      rw [List.filter_eq_nil_iff]
      intro a ha
      simpa using hnone a ha
    rw [hfe]
    simp

/-- Witness for C3_amended_store_preset: the append branch and the scenario
are exercised on the empty engine, the merge branch on an engine that already
stores a preset named X. -/
theorem C3_amended_store_preset_witness :
    ((∀ q ∈ WidgetSuggestionEngine.new.presets,
        q.name ≠ (⟨"X", some "d", [], none, 1, 0⟩ : Preset).name) ∧
      (store_preset WidgetSuggestionEngine.new
          ⟨"X", some "d", [], none, 1, 0⟩ 5).presets =
        WidgetSuggestionEngine.new.presets ++
          [⟨"X", some "d", [], none, 1, 0⟩]) ∧
    ((∃ q ∈ (⟨[], [⟨"X", some "old", [], none, 3, 7⟩], [], 1⟩ :
        WidgetSuggestionEngine).presets,
        q.name = (⟨"X", some "d", [], none, 1, 0⟩ : Preset).name) ∧
      (∃ l1 q l2,
        (⟨[], [⟨"X", some "old", [], none, 3, 7⟩], [], 1⟩ :
          WidgetSuggestionEngine).presets = l1 ++ q :: l2 ∧
        (∀ x ∈ l1, x.name ≠ (⟨"X", some "d", [], none, 1, 0⟩ : Preset).name) ∧
        q.name = (⟨"X", some "d", [], none, 1, 0⟩ : Preset).name ∧
        (store_preset (⟨[], [⟨"X", some "old", [], none, 3, 7⟩], [], 1⟩ :
            WidgetSuggestionEngine)
          ⟨"X", some "d", [], none, 1, 0⟩ 5).presets =
          l1 ++ { q with usage_count := q.usage_count + 1, last_used := 5 } :: l2)) ∧
    ((⟨"X", some "d", [], none, 1, 0⟩ : Preset).usage_count = 1 ∧
      ((store_preset (store_preset WidgetSuggestionEngine.new
          ⟨"X", some "d", [], none, 1, 0⟩ 5)
          ⟨"X", some "d", [], none, 1, 0⟩ 9).presets.filter
        fun q => q.name = (⟨"X", some "d", [], none, 1, 0⟩ : Preset).name) =
        [{ (⟨"X", some "d", [], none, 1, 0⟩ : Preset) with
            usage_count := 2, last_used := 9 }]) := by
  have hnone : ∀ q ∈ WidgetSuggestionEngine.new.presets,
      q.name ≠ (⟨"X", some "d", [], none, 1, 0⟩ : Preset).name := by
    simp [WidgetSuggestionEngine.new]
  have hex : ∃ q ∈ (⟨[], [⟨"X", some "old", [], none, 3, 7⟩], [], 1⟩ :
      WidgetSuggestionEngine).presets,
      q.name = (⟨"X", some "d", [], none, 1, 0⟩ : Preset).name :=
    ⟨⟨"X", some "old", [], none, 3, 7⟩, by simp, rfl⟩
  refine ⟨⟨hnone, ?_⟩, ⟨hex, ?_⟩, rfl, ?_⟩
  · exact (C3_amended_store_preset WidgetSuggestionEngine.new
      ⟨"X", some "d", [], none, 1, 0⟩ 5 9).1 hnone
  · exact (C3_amended_store_preset _ ⟨"X", some "d", [], none, 1, 0⟩ 5 9).2.1
      hex
  · exact (C3_amended_store_preset WidgetSuggestionEngine.new
      ⟨"X", some "d", [], none, 1, 0⟩ 5 9).2.2 hnone rfl

/-! # Claim C6: storing two widgets from the empty engine -/

/-- C6: from the empty engine, the first stored widget becomes record 1 with
frequency 1; if the second widget's extracted features have similarity above
the 0.95 merge threshold with the stored features, exactly one record remains
with frequency 2, while a similarity below the threshold yields two distinct
records of frequency 1 with the fresh increasing identifiers 1 and 2. -/
theorem C6_store_two_widgets (w1 w2 : Widget) (t1 t2 : ℕ) :
    (store_widget WidgetSuggestionEngine.new w1 t1).records =
      [⟨1, w1, (extract_features WidgetSuggestionEngine.new w1).1, 1, t1,
        none⟩] ∧
    (store_widget WidgetSuggestionEngine.new w1 t1).next_id = 2 ∧
    (95 / 100 < calculate_similarity
        (extract_features (store_widget WidgetSuggestionEngine.new w1 t1)
          w2).1
        (extract_features WidgetSuggestionEngine.new w1).1 →
      (store_widget (store_widget WidgetSuggestionEngine.new w1 t1)
          w2 t2).records =
        [⟨1, w1, (extract_features WidgetSuggestionEngine.new w1).1, 2, t2,
          none⟩] ∧
      (store_widget (store_widget WidgetSuggestionEngine.new w1 t1)
          w2 t2).next_id = 2) ∧
    (calculate_similarity
        (extract_features (store_widget WidgetSuggestionEngine.new w1 t1)
          w2).1
        (extract_features WidgetSuggestionEngine.new w1).1 < 95 / 100 →
      (store_widget (store_widget WidgetSuggestionEngine.new w1 t1)
          w2 t2).records =
        [⟨1, w1, (extract_features WidgetSuggestionEngine.new w1).1, 1, t1,
          none⟩,
         ⟨2, w2,
          (extract_features (store_widget WidgetSuggestionEngine.new w1 t1)
            w2).1, 1, t2, none⟩] ∧
      (store_widget (store_widget WidgetSuggestionEngine.new w1 t1)
          w2 t2).next_id = 3) := by
  have ha : (store_widget WidgetSuggestionEngine.new w1 t1).records =
      [⟨1, w1, (extract_features WidgetSuggestionEngine.new w1).1, 1, t1,
        none⟩] := rfl
  have hb : (store_widget WidgetSuggestionEngine.new w1 t1).next_id = 2 := rfl
  refine ⟨ha, hb, ?_, ?_⟩
  · intro hsim
    constructor
    · rw [store_widget_eq, ha]
      simp only [bumpFirstRecord]
      rw [if_pos hsim]
    · rw [store_widget_eq, ha]
      simp only [bumpFirstRecord]
      rw [if_pos hsim]
      exact hb
  · intro hsim
    have hneg : ¬ 95 / 100 < calculate_similarity
        (extract_features (store_widget WidgetSuggestionEngine.new w1 t1)
          w2).1
        (extract_features WidgetSuggestionEngine.new w1).1 :=
      not_lt.mpr hsim.le
    constructor
    · rw [store_widget_eq, ha]
      simp only [bumpFirstRecord]
      rw [if_neg hneg]
      simp [hb]
    · rw [store_widget_eq, ha]
      simp only [bumpFirstRecord]
      rw [if_neg hneg]
      simp [hb]

set_option maxHeartbeats 2000000 in
/-- Witness for C6_store_two_widgets: two identical volume sliders merge
(similarity 1), a volume slider followed by an unrelated pan knob stays
separate (similarity 309/4000). -/
theorem C6_store_two_widgets_witness :
    (95 / 100 < calculate_similarity
        (extract_features (store_widget WidgetSuggestionEngine.new
          ⟨some "vol", some 0, some 100, some false, some "slider", some 50⟩
            3)
          ⟨some "vol", some 0, some 100, some false, some "slider", some 50⟩).1
        (extract_features WidgetSuggestionEngine.new
          ⟨some "vol", some 0, some 100, some false, some "slider",
            some 50⟩).1 ∧
      (store_widget (store_widget WidgetSuggestionEngine.new
          ⟨some "vol", some 0, some 100, some false, some "slider", some 50⟩
            3)
        ⟨some "vol", some 0, some 100, some false, some "slider", some 50⟩
          5).records =
        [⟨1, ⟨some "vol", some 0, some 100, some false, some "slider",
            some 50⟩,
          (extract_features WidgetSuggestionEngine.new
            ⟨some "vol", some 0, some 100, some false, some "slider",
              some 50⟩).1, 2, 5, none⟩] ∧
      (store_widget (store_widget WidgetSuggestionEngine.new
          ⟨some "vol", some 0, some 100, some false, some "slider", some 50⟩
            3)
        ⟨some "vol", some 0, some 100, some false, some "slider", some 50⟩
          5).next_id = 2) ∧
    (calculate_similarity
        (extract_features (store_widget WidgetSuggestionEngine.new
          ⟨some "vol", some 0, some 100, some false, some "slider", some 50⟩
            3)
          ⟨some "pan", some 0, some 1, some true, some "knob", some (1 / 2)⟩).1
        (extract_features WidgetSuggestionEngine.new
          ⟨some "vol", some 0, some 100, some false, some "slider",
            some 50⟩).1 < 95 / 100 ∧
      (store_widget (store_widget WidgetSuggestionEngine.new
          ⟨some "vol", some 0, some 100, some false, some "slider", some 50⟩
            3)
        ⟨some "pan", some 0, some 1, some true, some "knob", some (1 / 2)⟩
          5).records =
        [⟨1, ⟨some "vol", some 0, some 100, some false, some "slider",
            some 50⟩,
          (extract_features WidgetSuggestionEngine.new
            ⟨some "vol", some 0, some 100, some false, some "slider",
              some 50⟩).1, 1, 3, none⟩,
         ⟨2, ⟨some "pan", some 0, some 1, some true, some "knob",
            some (1 / 2)⟩,
          (extract_features (store_widget WidgetSuggestionEngine.new
            ⟨some "vol", some 0, some 100, some false, some "slider",
              some 50⟩ 3)
            ⟨some "pan", some 0, some 1, some true, some "knob",
              some (1 / 2)⟩).1, 1, 5, none⟩] ∧
      (store_widget (store_widget WidgetSuggestionEngine.new
          ⟨some "vol", some 0, some 100, some false, some "slider", some 50⟩
            3)
        ⟨some "pan", some 0, some 1, some true, some "knob", some (1 / 2)⟩
          5).next_id = 3) := by
  have hsimA : 95 / 100 < calculate_similarity
      (extract_features (store_widget WidgetSuggestionEngine.new
        ⟨some "vol", some 0, some 100, some false, some "slider", some 50⟩
          3)
        ⟨some "vol", some 0, some 100, some false, some "slider", some 50⟩).1
      (extract_features WidgetSuggestionEngine.new
        ⟨some "vol", some 0, some 100, some false, some "slider",
          some 50⟩).1 := by
    with_unfolding_all decide
  have hsimB : calculate_similarity
      (extract_features (store_widget WidgetSuggestionEngine.new
        ⟨some "vol", some 0, some 100, some false, some "slider", some 50⟩
          3)
        ⟨some "pan", some 0, some 1, some true, some "knob", some (1 / 2)⟩).1
      (extract_features WidgetSuggestionEngine.new
        ⟨some "vol", some 0, some 100, some false, some "slider",
          some 50⟩).1 < 95 / 100 := by
    with_unfolding_all decide
  refine ⟨⟨hsimA, ?_⟩, ⟨hsimB, ?_⟩⟩
  · exact (C6_store_two_widgets
      ⟨some "vol", some 0, some 100, some false, some "slider", some 50⟩
      ⟨some "vol", some 0, some 100, some false, some "slider", some 50⟩
      3 5).2.2.1 hsimA
  · exact (C6_store_two_widgets
      ⟨some "vol", some 0, some 100, some false, some "slider", some 50⟩
      ⟨some "pan", some 0, some 1, some true, some "knob", some (1 / 2)⟩
      3 5).2.2.2 hsimB

end WidgetIntelligence
